import Mathlib

/-!
Verification of the bookstore inventory system (src/shelf_track.py) against
its natural-language specification.

The program is a menu-driven CRUD application over two SQLite tables,
book(id PK, title, authorID, qty) and author(id PK, name, country).
We embed the store as two Lean lists of records, each SQL statement of the
source as a pure function on that state, and each interactive operation as a
function from the state and the list of user-entered input lines to the new
state plus the list of emitted messages.  Interactive retry loops consume one
input line per iteration, so they are structurally recursive on the input
list; an exhausted input list ends the run with the current state (no theorem
below depends on that convention).

Exceptional control flow is modelled where a claim depends on it: the
db_connection context manager (lines 18-48) catches sqlite3.Error inside the
generator without re-raising, so contextlib suppresses every storage fault at
the with-block boundary; the surrounding except-handlers in the operations
can never fire.  The deterministic embedding reflects this for the one
storage fault that arises without fault injection (primary-key violation on
insert), and a separate fault-parameterised model covers an injected fault in
the delete operation.
-/

namespace ShelfTrack

/-- A row of the book table: book(id, title, authorID, qty), from create_table
(lines 74-81). -/
structure Book where
  id : Int
  title : String
  authorID : Int
  qty : Int
  deriving Repr, DecidableEq

/-- A row of the author table: author(id, name, country), from create_table
(lines 84-90). -/
structure Author where
  id : Int
  name : String
  country : String
  deriving Repr, DecidableEq

/-- The persistent store: the two tables of ebookstore.db, in insertion
order. -/
structure DB where
  books : List Book
  authors : List Author
  deriving Repr, DecidableEq

/-- Tags for the messages printed by the source, one constructor per family
of print sites (cosmetic wording differences between sites sharing a
constructor are noted at each operation).  The payload carries the
interpolated value where a claim depends on it. -/
inductive Msg where
  /-- Invalid (non-numeric) id input, e.g. line 227. -/
  | invalidNumber
  /-- Out-of-range id input, e.g. lines 219, 255, 607, 901, 962. -/
  | pos4Prompt
  /-- Line 279 / 621: the author ID does not exist. -/
  | authorMissing (aid : Int)
  /-- Line 358: please enter y or n. -/
  | ynRetry
  /-- Blank title during book entry, line 238. -/
  | blankTitle
  /-- Blank name/country/title field, lines 295, 319, 549, 648, ... -/
  | blankField
  /-- Name or country must start with a letter, lines 300, 655, 782, 822. -/
  | nameStartLetter
  /-- Name or country cannot be numeric, lines 307, 663, 787, 827. -/
  | nameNumeric
  /-- Lines 345, 721: the author was added successfully. -/
  | authorAdded
  /-- Line 48: the generic message printed by db_connection when it catches
  (and suppresses) a sqlite3.Error. -/
  | genericDbError
  /-- Line 397: the duplicate-book-id message.  Unreachable: the
  IntegrityError is suppressed inside db_connection before the handler at
  line 396 can see it. -/
  | duplicateBookId (bid : Int)
  /-- Line 393: the book has been added. -/
  | bookAdded (title : String)
  /-- Line 424: there are no books currently. -/
  | noBooks
  /-- Line 881: there are no current books to delete. -/
  | noBooksDelete
  /-- Line 470: no book found with that ID, try again. -/
  | noBookWithId
  /-- Negative quantity, lines 374, 499. -/
  | qtyNegative
  /-- Non-numeric quantity, lines 381, 506. -/
  | invalidQty
  /-- Line 523: the quantity was successfully added. -/
  | qtyAdded
  /-- Line 569: the title already exists. -/
  | titleExists
  /-- Line 590: the title was successfully updated. -/
  | titleUpdated
  /-- Line 854: invalid sub-menu option. -/
  | subMenuInvalid
  /-- Line 763: please enter a 4 digit numeric author ID. -/
  | authorIdNumeric
  /-- Line 758: the author ID has been successfully updated. -/
  | authorIdUpdated
  /-- Line 805: the author name has been updated successfully. -/
  | authorNameUpdated
  /-- Line 845: the country has been successfully updated. -/
  | countryUpdated
  /-- Line 929: the book with this id has been deleted. -/
  | deleted (bid : Int)
  /-- Line 918: the book with this id was not found. -/
  | bookNotFound (bid : Int)
  /-- Lines 981-988: the found book displayed by search. -/
  | searchFound (b : Book)
  /-- Line 992: there are no books for this id. -/
  | searchNotFound (bid : Int)
  /-- Lines 1030-1037: the joined rows displayed by view_details. -/
  | details (rows : List (String × String × String))
  deriving Repr, DecidableEq

/-- Leading and trailing whitespace removed from a character list.  The
string helpers below work on the underlying character list so that every
definition reduces inside the kernel. -/
def stripChars (l : List Char) : List Char :=
  ((l.dropWhile Char.isWhitespace).reverse.dropWhile Char.isWhitespace).reverse

/-- Python s.strip(). -/
def pyStrip (s : String) : String :=
  String.mk (stripChars s.data)

/-- Python s.lower(). -/
def pyLower (s : String) : String :=
  String.mk (s.data.map Char.toLower)

/-- Non-empty and all decimal digits. -/
def allDigits (l : List Char) : Bool :=
  decide (l ≠ []) && l.all Char.isDigit

/-- The numeric value of a digit list. -/
def digitsVal (l : List Char) : Nat :=
  l.foldl (fun acc c => 10 * acc + (c.toNat - 48)) 0

/-- Python int(s) on an input line: strip surrounding whitespace, then parse
an optionally minus-signed decimal numeral; a ValueError is modelled as none.
(The exotic inputs int() also accepts, such as a plus sign or digit-group
underscores, are not modelled; no theorem below feeds them in.) -/
def pyInt (s : String) : Option Int :=
  match stripChars s.data with
  | '-' :: rest => if allDigits rest then some (-(digitsVal rest : Int)) else none
  | l => if allDigits l then some ((digitsVal l : Int)) else none

/-- Python str.isdigit: non-empty and every character a digit. -/
def pyIsdigit (s : String) : Bool :=
  allDigits s.data

/-- Python s[0].isalpha() for a non-empty string (used after a blank check). -/
def startsAlpha (s : String) : Bool :=
  match s.data with
  | [] => false
  | c :: _ => c.isAlpha

/-- Python s.lstrip(c): drop every leading occurrence of the character. -/
def pyLstrip (s : String) (c : Char) : String :=
  String.mk (s.data.dropWhile (fun x => x = c))

/-- The name/country validation shared by every author-field prompt
(lines 294-310 and its copies): blank, must start with a letter, must not be
numeric after stripping leading minus signs.  none means the value passed;
some is the rejection message. -/
def nameCheck (v : String) : Option Msg :=
  if v = "" then some Msg.blankField
  else if ¬ (startsAlpha v = true) then some Msg.nameStartLetter
  else if pyIsdigit (pyLstrip v '-') = true then some Msg.nameNumeric
  else none

/-- SELECT id FROM author WHERE id = ? (lines 270-275) viewed as a Bool. -/
def authorExists (db : DB) (aid : Int) : Bool :=
  db.authors.any (fun a => a.id == aid)

/-- SELECT * FROM book WHERE id = ? followed by fetchone (lines 907-914,
971-977). -/
def lookupBook (db : DB) (bid : Int) : Option Book :=
  db.books.find? (fun b => b.id == bid)

/-- SELECT id FROM author WHERE id = ? followed by fetchone, as an Option. -/
def lookupAuthor (db : DB) (aid : Int) : Option Author :=
  db.authors.find? (fun a => a.id == aid)

/-- INSERT INTO book (lines 387-390): the PRIMARY KEY constraint on id makes
the insert raise IntegrityError when the id is already present (none);
otherwise the row is appended. -/
def insertBook (db : DB) (b : Book) : Option DB :=
  if db.books.any (fun x => x.id == b.id) then none
  else some { db with books := db.books ++ [b] }

/-- INSERT INTO author (lines 339-343, 705-719): PRIMARY KEY on id. -/
def insertAuthor (db : DB) (a : Author) : Option DB :=
  if db.authors.any (fun x => x.id == a.id) then none
  else some { db with authors := db.authors ++ [a] }

/-- UPDATE book SET qty = ? WHERE id = ? (lines 511-515). -/
def updateQty (db : DB) (bid q : Int) : DB :=
  { db with books := db.books.map (fun b => if b.id == bid then { b with qty := q } else b) }

/-- UPDATE book SET title = ? WHERE ID = ? (lines 577-581). -/
def updateTitle (db : DB) (bid : Int) (t : String) : DB :=
  { db with books := db.books.map (fun b => if b.id == bid then { b with title := t } else b) }

/-- UPDATE book SET authorID = ? WHERE id = ? (lines 744-748). -/
def updateAuthorID (db : DB) (bid aid : Int) : DB :=
  { db with books := db.books.map (fun b => if b.id == bid then { b with authorID := aid } else b) }

/-- UPDATE author SET name = ? WHERE id = ? (lines 794-798). -/
def updateAuthorName (db : DB) (aid : Int) (v : String) : DB :=
  { db with authors := db.authors.map (fun a => if a.id == aid then { a with name := v } else a) }

/-- UPDATE author SET country = ? WHERE id = ? (lines 833-837). -/
def updateAuthorCountry (db : DB) (aid : Int) (v : String) : DB :=
  { db with authors := db.authors.map (fun a => if a.id == aid then { a with country := v } else a) }

/-- DELETE FROM book WHERE id = ? (lines 924-927). -/
def deleteBook (db : DB) (bid : Int) : DB :=
  { db with books := db.books.filter (fun b => ! (b.id == bid)) }

/-- SELECT * FROM book WHERE title = ? and id = ? followed by fetchone
(lines 555-560): the duplicate-title check of the update-title sub-action. -/
def titleIdMatch (db : DB) (t : String) (bid : Int) : Option Book :=
  db.books.find? (fun b => b.title == t && b.id == bid)

/-- SELECT book.*, author.name, author.country FROM book INNER JOIN author ON
book.authorID = author.id WHERE book.id = ? followed by fetchone
(lines 451-460). -/
def joinedLookup (db : DB) (bid : Int) : Option (Book × Author) :=
  match lookupBook db bid with
  | none => none
  | some b =>
    match lookupAuthor db b.authorID with
    | none => none
    | some a => some (b, a)

/-- The store after create_table and data_sets (lines 97-138): the five
seeded books and authors, in insertion order. -/
def seedDB : DB :=
  { books :=
      [ ⟨3001, "A Tale of Two Cities", 1290, 30⟩,
        ⟨3002, "Harry Potter and the Philosopher\x27s Stone", 8937, 40⟩,
        ⟨3003, "The Lion, the Witch and the Wardrobe", 2356, 25⟩,
        ⟨3004, "The Lord of the Rings", 6380, 37⟩,
        ⟨3005, "Alice\x27s Adventures in Wonderland", 5620, 12⟩ ],
    authors :=
      [ ⟨1290, "Charles Dickens", "England"⟩,
        ⟨8937, "J.K Rowling", "England"⟩,
        ⟨2356, "C.S Lewis", "Ireland"⟩,
        ⟨6380, "J.R.R Tolkien", "South Africa"⟩,
        ⟨5620, "Lewis Carroll", "England"⟩ ] }

/-- The book-id prompt loop of enter_book (lines 212-227): retry until the
line parses as an integer in [1000, 9999].  Returns the messages printed and,
unless input ran out, the accepted id with the remaining input. -/
def ebReadBookId : List String → List Msg × Option (Int × List String)
  | [] => ([], none)
  | s :: rest =>
    match pyInt s with
    | none => (Msg.invalidNumber :: (ebReadBookId rest).1, (ebReadBookId rest).2)
    | some n =>
      if n < 1000 ∨ 9999 < n then
        (Msg.pos4Prompt :: (ebReadBookId rest).1, (ebReadBookId rest).2)
      else ([], some (n, rest))

/-- The title prompt loop of enter_book (lines 232-242): strip, retry while
blank. -/
def ebReadTitle : List String → List Msg × Option (String × List String)
  | [] => ([], none)
  | s :: rest =>
    if pyStrip s = "" then (Msg.blankTitle :: (ebReadTitle rest).1, (ebReadTitle rest).2)
    else ([], some (pyStrip s, rest))

/-- The author-id prompt loop of enter_book (lines 247-263): same rule as the
book id (the range message at line 255 differs only in wording). -/
def ebReadAuthorId : List String → List Msg × Option (Int × List String)
  | [] => ([], none)
  | s :: rest =>
    match pyInt s with
    | none => (Msg.invalidNumber :: (ebReadAuthorId rest).1, (ebReadAuthorId rest).2)
    | some n =>
      if n < 1000 ∨ 9999 < n then
        (Msg.pos4Prompt :: (ebReadAuthorId rest).1, (ebReadAuthorId rest).2)
      else ([], some (n, rest))

/-- The quantity prompt loop of enter_book (lines 367-381): retry until the
line parses as an integer that is not negative. -/
def ebReadQty : List String → List Msg × Option (Int × List String)
  | [] => ([], none)
  | s :: rest =>
    match pyInt s with
    | none => (Msg.invalidQty :: (ebReadQty rest).1, (ebReadQty rest).2)
    | some q =>
      if q < 0 then (Msg.qtyNegative :: (ebReadQty rest).1, (ebReadQty rest).2)
      else ([], some (q, rest))

/-- The inline author-creation loop of enter_book (lines 281-358), entered
when the author id is absent.  Each iteration reads the y/n answer; on y it
reads and validates the name and country (a failed validation continues the
outer y/n loop, as the continue statements at lines 296-334 do) and inserts
the author; on n the whole operation is aborted (none with the store
untouched).  The generic-error branch of the insert mirrors db_connection
suppressing a storage fault (the print and break inside the with-block are
skipped, so control re-enters the y/n loop); it is unreachable here because
the id was just checked absent.  Returns the messages and, on success, the
store with the new author plus the remaining input. -/
inductive AMode where
  /-- The y/n prompt at line 283. -/
  | yn
  /-- The author-name prompt at line 289. -/
  | name
  /-- The author-country prompt at line 313; the validated name is carried. -/
  | country (nm : String)
  deriving Repr, DecidableEq

/-- Result of consuming one input line of the inline author-creation loop:
continue at some prompt, finish with the author inserted, or abort the whole
AddBook operation (the return at lines 352-354). -/
inductive AOut where
  | cont (m : AMode) (ms : List Msg)
  | done (db2 : DB) (ms : List Msg)
  | abort (ms : List Msg)
  deriving Repr, DecidableEq

/-- One input line of the inline author-creation loop of enter_book.  A
failed name or country validation continues the outer y/n loop, as the
continue statements at lines 296-334 do.  The generic-error branch of the
insert mirrors db_connection suppressing a storage fault (the print and
break inside the with-block are skipped, so control re-enters the y/n loop);
it is unreachable here because the author id was just checked absent. -/
def ebAuthorStep (db : DB) (aid : Int) (m : AMode) (s : String) : AOut :=
  match m with
  | .yn =>
    if pyLower (pyStrip s) = "y" then .cont .name []
    else if pyLower (pyStrip s) = "n" then .abort []
    else .cont .yn [Msg.ynRetry]
  | .name =>
    match nameCheck (pyStrip s) with
    | some msg => .cont .yn [msg]
    | none => .cont (.country (pyStrip s)) []
  | .country nm =>
    match nameCheck (pyStrip s) with
    | some msg => .cont .yn [msg]
    | none =>
      match insertAuthor db ⟨aid, nm, pyStrip s⟩ with
      | some db2 => .done db2 [Msg.authorAdded]
      | none => .cont .yn [Msg.genericDbError]

/-- Run the inline author-creation loop from prompt m over the remaining
input.  none means the operation was aborted (or input ran out); some
returns the store with the new author and the unconsumed input. -/
def ebAuthorRun (db : DB) (aid : Int) (m : AMode) : List String → List Msg × Option (DB × List String)
  | [] => ([], none)
  | s :: rest =>
    match ebAuthorStep db aid m s with
    | .cont m2 ms => (ms ++ (ebAuthorRun db aid m2 rest).1, (ebAuthorRun db aid m2 rest).2)
    | .done db2 ms => (ms, some (db2, rest))
    | .abort ms => (ms, none)

/-- The inline author-creation loop of enter_book (lines 281-358), entered
when the author id is absent, starting at the y/n prompt. -/
def ebAuthorLoop (db : DB) (aid : Int) (inp : List String) : List Msg × Option (DB × List String) :=
  ebAuthorRun db aid AMode.yn inp

/-- The tail of enter_book from the quantity prompt on (lines 367-401): read
the quantity and insert the book.  On a duplicate id the IntegrityError is
suppressed inside db_connection, which prints its generic message; the
distinct duplicate message of the handler at lines 396-397 is never printed. -/
def ebFinish (db : DB) (bid : Int) (t : String) (aid : Int) (ms : List Msg)
    (inp : List String) : DB × List Msg :=
  match ebReadQty inp with
  | (msq, none) => (db, ms ++ msq)
  | (msq, some (q, _rest)) =>
    match insertBook db ⟨bid, t, aid, q⟩ with
    | some db2 => (db2, ms ++ msq ++ [Msg.bookAdded t])
    | none => (db, ms ++ msq ++ [Msg.genericDbError])

/-- AddBook: the enter_book operation (lines 203-401) on a store and an input
script. -/
def enter_book (db : DB) (inp : List String) : DB × List Msg :=
  match ebReadBookId inp with
  | (ms1, none) => (db, ms1)
  | (ms1, some (bid, r1)) =>
    match ebReadTitle r1 with
    | (ms2, none) => (db, ms1 ++ ms2)
    | (ms2, some (t, r2)) =>
      match ebReadAuthorId r2 with
      | (ms3, none) => (db, ms1 ++ ms2 ++ ms3)
      | (ms3, some (aid, r3)) =>
        if authorExists db aid then
          ebFinish db bid t aid (ms1 ++ ms2 ++ ms3) r3
        else
          match ebAuthorLoop db aid r3 with
          | (ms4, none) => (db, ms1 ++ ms2 ++ ms3 ++ Msg.authorMissing aid :: ms4)
          | (ms4, some (db2, r4)) =>
            ebFinish db2 bid t aid (ms1 ++ ms2 ++ ms3 ++ Msg.authorMissing aid :: ms4) r4

/-- The book-id prompt loop of update_book (lines 436-470).  The source
validates the raw line with isdigit() and a length-4 check (line 444), then
passes the string to the JOIN query; sqlite INTEGER affinity converts the
4-digit string to its numeric value (so the line 0999 is accepted and looked
up as book id 999).  Retries while the line is malformed or the joined row is
absent. -/
def ubReadId (db : DB) : List String → List Msg × Option (Int × Book × Author × List String)
  | [] => ([], none)
  | s :: rest =>
    if ¬ (pyIsdigit s = true ∧ s.data.length = 4) then
      (Msg.invalidNumber :: (ubReadId db rest).1, (ubReadId db rest).2)
    else
      match joinedLookup db ((pyInt s).getD 0) with
      | some (b, a) => ([], some ((pyInt s).getD 0, b, a, rest))
      | none => (Msg.noBookWithId :: (ubReadId db rest).1, (ubReadId db rest).2)

/-- The quantity prompt loop of update_book (lines 491-506); wording of the
two rejection messages differs slightly from enter_book. -/
def ubReadQty : List String → List Msg × Option (Int × List String)
  | [] => ([], none)
  | s :: rest =>
    match pyInt s with
    | none => (Msg.invalidQty :: (ubReadQty rest).1, (ubReadQty rest).2)
    | some q =>
      if q < 0 then (Msg.qtyNegative :: (ubReadQty rest).1, (ubReadQty rest).2)
      else ([], some (q, rest))

/-- The interactive position inside the sub-menu of update_book
(lines 526-854): each constructor is one input() site. -/
inductive UMode where
  /-- The sub-menu choice prompt, line 527. -/
  | choice
  /-- The new-title prompt, line 543. -/
  | title
  /-- The new-author-id prompt, line 600. -/
  | authId
  /-- The y/n prompt of the inline author creation, line 629; the payload is
  the pending new author id. -/
  | authYN (n : Int)
  /-- The author-name prompt of the inline creation, line 640. -/
  | authName (n : Int)
  /-- The author-country prompt of the inline creation, line 671; the name
  already collected is carried along. -/
  | authCountry (n : Int) (nm : String)
  /-- The new-author-name prompt of the an action, line 771. -/
  | anName
  /-- The new-country prompt of the ac action, line 813. -/
  | acCountry
  deriving Repr, DecidableEq

/-- Result of consuming one input line inside the sub-menu: continue in some
mode, or leave update_book (the r choice at line 849, or the return on n at
lines 634-635). -/
inductive SubOut where
  | cont (db : DB) (m : UMode) (ms : List Msg)
  | stop (db : DB) (ms : List Msg)
  deriving Repr, DecidableEq

/-- The store carried by a sub-menu step result. -/
def SubOut.db : SubOut → DB
  | .cont d _ _ => d
  | .stop d _ => d

/-- One input line of the update_book sub-menu, at position m.  idNum is the
book id chosen at lines 436-470; origAid is book_chosen[2], the author id
captured there, which the an/ac actions use (lines 798, 837) even after the
a action may have repointed the book. -/
def subStep (idNum origAid : Int) (db : DB) (m : UMode) (s : String) : SubOut :=
  match m with
  | .choice =>
    if pyLower (pyStrip s) = "t" then .cont db .title []
    else if pyLower (pyStrip s) = "a" then .cont db .authId []
    else if pyLower (pyStrip s) = "an" then .cont db .anName []
    else if pyLower (pyStrip s) = "ac" then .cont db .acCountry []
    else if pyLower (pyStrip s) = "r" then .stop db []
    else .cont db .choice [Msg.subMenuInvalid]
  | .title =>
    if pyStrip s = "" then .cont db .title [Msg.blankField]
    else if (titleIdMatch db (pyStrip s) idNum).isSome then .cont db .title [Msg.titleExists]
    else .cont (updateTitle db idNum (pyStrip s)) .choice [Msg.titleUpdated]
  | .authId =>
    match pyInt s with
    | none => .cont db .authId [Msg.authorIdNumeric]
    | some n =>
      -- the range check at lines 606-607 prints but does not continue, so
      -- execution falls through to the existence check either way
      let warn : List Msg := if ¬ (1000 ≤ n ∧ n ≤ 9999) then [Msg.pos4Prompt] else []
      if authorExists db n then
        .cont (updateAuthorID db idNum n) .choice (warn ++ [Msg.authorIdUpdated])
      else
        .cont db (.authYN n) (warn ++ [Msg.authorMissing n])
  | .authYN n =>
    if pyLower (pyStrip s) = "n" then .stop db []
    else if pyLower (pyStrip s) = "y" then .cont db (.authName n) []
    else .cont db (.authYN n) []
  | .authName n =>
    match nameCheck (pyStrip s) with
    | some m => .cont db (.authYN n) [m]
    | none => .cont db (.authCountry n (pyStrip s)) []
  | .authCountry n nm =>
    match nameCheck (pyStrip s) with
    | some m => .cont db (.authYN n) [m]
    | none =>
      match insertAuthor db ⟨n, nm, pyStrip s⟩ with
      | some db2 => .cont (updateAuthorID db2 idNum n) .choice [Msg.authorAdded, Msg.authorIdUpdated]
      | none => .cont db (.authYN n) [Msg.genericDbError]
  | .anName =>
    match nameCheck (pyStrip s) with
    | some m => .cont db .anName [m]
    | none => .cont (updateAuthorName db origAid (pyStrip s)) .choice [Msg.authorNameUpdated]
  | .acCountry =>
    match nameCheck (pyStrip s) with
    | some m => .cont db .acCountry [m]
    | none => .cont (updateAuthorCountry db origAid (pyStrip s)) .choice [Msg.countryUpdated]

/-- Run the update_book sub-menu from mode m over the remaining input. -/
def subRun (idNum origAid : Int) (db : DB) (m : UMode) : List String → DB × List Msg
  | [] => (db, [])
  | s :: rest =>
    match subStep idNum origAid db m s with
    | .cont db2 m2 ms => ((subRun idNum origAid db2 m2 rest).1, ms ++ (subRun idNum origAid db2 m2 rest).2)
    | .stop db2 ms => (db2, ms)

/-- UpdateBook: the update_book operation (lines 404-854).  List the books
(abandon when empty), choose an existing book, commit the mandatory new
quantity, then run the sub-menu. -/
def update_book (db : DB) (inp : List String) : DB × List Msg :=
  if db.books.isEmpty then (db, [Msg.noBooks])
  else
    match ubReadId db inp with
    | (ms1, none) => (db, ms1)
    | (ms1, some (idNum, b, _a, r1)) =>
      match ubReadQty r1 with
      | (ms2, none) => (db, ms1 ++ ms2)
      | (ms2, some (q, r2)) =>
        ((subRun idNum b.authorID (updateQty db idNum q) UMode.choice r2).1,
         ms1 ++ ms2 ++ Msg.qtyAdded :: (subRun idNum b.authorID (updateQty db idNum q) UMode.choice r2).2)

/-- The id prompt loop of the delete operation (lines 891-939): strip and
parse the line, reject out of range (with continue), re-prompt when the book
is not found, else delete and stop. -/
def deleteLoop (db : DB) : List String → DB × List Msg
  | [] => (db, [])
  | s :: rest =>
    match pyInt s with
    | none => ((deleteLoop db rest).1, Msg.invalidNumber :: (deleteLoop db rest).2)
    | some n =>
      if ¬ (1000 ≤ n ∧ n ≤ 9999) then
        ((deleteLoop db rest).1, Msg.pos4Prompt :: (deleteLoop db rest).2)
      else
        match lookupBook db n with
        | none => ((deleteLoop db rest).1, Msg.bookNotFound n :: (deleteLoop db rest).2)
        | some _ => (deleteBook db n, [Msg.deleted n])

/-- DeleteBook: the delete operation (lines 857-939). -/
def delete (db : DB) (inp : List String) : DB × List Msg :=
  if db.books.isEmpty then (db, [Msg.noBooksDelete])
  else deleteLoop db inp

/-- The id prompt loop of search (lines 950-1003).  The out-of-range branch
at lines 961-962 prints its message but has no continue, so the lookup below
it still runs and the loop breaks; only a non-numeric line re-prompts. -/
def searchLoop (db : DB) : List String → List Msg
  | [] => []
  | s :: rest =>
    match pyInt s with
    | none => Msg.invalidNumber :: searchLoop db rest
    | some n =>
      (if ¬ (1000 ≤ n ∧ n ≤ 9999) then [Msg.pos4Prompt] else []) ++
        (match lookupBook db n with
         | some b => [Msg.searchFound b]
         | none => [Msg.searchNotFound n])

/-- SearchBook: the search operation (lines 942-1003); it never writes. -/
def search (db : DB) (inp : List String) : DB × List Msg :=
  (db, searchLoop db inp)

/-- ViewAllDetails: the view_details operation (lines 1006-1037), the INNER
JOIN of every book with its author in book order; it never writes. -/
def view_details (db : DB) : DB × List Msg :=
  (db, [Msg.details (db.books.filterMap
    (fun b => (lookupAuthor db b.authorID).map (fun a => (b.title, a.name, a.country))))])

/-- A Python exception class that no handler in the program catches. -/
inductive PyExn where
  /-- UnboundLocalError: a local variable referenced before assignment. -/
  | unboundLocal
  deriving Repr, DecidableEq

/-- The outcome of one operation when a storage fault may be injected:
either a normal return to the menu, or an uncaught exception that propagates
through menu() and run_system() (which catches only sqlite3.Error) and
terminates the process. -/
inductive Outcome where
  | ok (db : DB) (ms : List Msg)
  | crash (e : PyExn) (ms : List Msg)
  deriving Repr, DecidableEq

/-- The initial SELECT * FROM book of delete (lines 866-871) with a possible
injected storage fault.  When the execute raises sqlite3.Error, the exception
is thrown into the db_connection generator at its yield, caught by the except
at lines 47-48 (which prints the generic message) and not re-raised, so
contextlib suppresses it: the with-block exits cleanly, the handler at
lines 875-877 never fires, and book_list is left unassigned (none). -/
def fetchAllBooks (fault : Bool) (db : DB) : Option (List Book) × List Msg :=
  if fault then (none, [Msg.genericDbError]) else (some db.books, [])

/-- The delete operation under a possible storage fault in its initial fetch.
With book_list unassigned, the statement if not book_list at line 880 raises
UnboundLocalError, which no enclosing handler catches. -/
def deleteF (fault : Bool) (db : DB) (inp : List String) : Outcome :=
  match fetchAllBooks fault db with
  | (none, ms) => Outcome.crash PyExn.unboundLocal ms
  | (some bl, ms) =>
    if bl.isEmpty then Outcome.ok db (ms ++ [Msg.noBooksDelete])
    else Outcome.ok (deleteLoop db inp).1 (ms ++ (deleteLoop db inp).2)

/-- The stores reachable from the seeded initial store by running the five
menu operations with arbitrary input scripts. -/
inductive Reachable : DB → Prop where
  | seed : Reachable seedDB
  | add {db : DB} (inp : List String) (h : Reachable db) : Reachable (enter_book db inp).1
  | upd {db : DB} (inp : List String) (h : Reachable db) : Reachable (update_book db inp).1
  | del {db : DB} (inp : List String) (h : Reachable db) : Reachable (delete db inp).1
  | sea {db : DB} (inp : List String) (h : Reachable db) : Reachable (search db inp).1
  | view {db : DB} (h : Reachable db) : Reachable (view_details db).1

/-- The referential invariant of the spec: every book row references an
author id present in the author table. -/
def refInvB (db : DB) : Bool :=
  db.books.all (fun b => authorExists db b.authorID)

/-- The quantity stored for a given book id, the observation the quantity
claims are about. -/
def qtyOf (db : DB) (i : Int) : Option Int :=
  (lookupBook db i).map (fun b => b.qty)

/-! Theorems.  The claim labels C1-C10 refer to the frozen claim list. -/

/-- A found row makes the books-with-this-id existence test true. -/
theorem any_id_of_lookup (db : DB) (i : Int) (b : Book) (h : lookupBook db i = some b) :
    db.books.any (fun x => x.id == i) = true := by
  unfold lookupBook at h
  have hp := List.find?_some h
  exact List.any_eq_true.mpr ⟨b, List.mem_of_find?_eq_some h, hp⟩

/-- An absent id makes the books-with-this-id existence test false. -/
theorem any_id_of_lookup_none (db : DB) (i : Int) (h : lookupBook db i = none) :
    db.books.any (fun x => x.id == i) = false := by
  unfold lookupBook at h
  rw [Bool.eq_false_iff]
  intro hc
  rcases List.any_eq_true.mp hc with ⟨b, hm, hp⟩
  exact List.find?_eq_none.mp h b hm hp

/-- The joined lookup of update_book finds the book row itself. -/
theorem joinedLookup_book (db : DB) (n : Int) (b : Book) (a : Author)
    (h : joinedLookup db n = some (b, a)) : lookupBook db n = some b := by
  unfold joinedLookup at h
  cases hb : lookupBook db n with
  | none => simp [hb] at h
  | some b0 =>
    simp only [hb] at h
    cases ha : lookupAuthor db b0.authorID with
    | none => simp [ha] at h
    | some a0 =>
      simp only [ha, Option.some.injEq, Prod.mk.injEq] at h
      rw [h.1]

/-- Mapping an id-preserving row transformer over a book list commutes with
the lookup by id. -/
theorem find?_map_pres_id (l : List Book) (g : Book → Book)
    (hg : ∀ b, (g b).id = b.id) (i : Int) :
    (l.map g).find? (fun b => b.id == i) = (l.find? (fun b => b.id == i)).map g := by
  induction l with
  | nil => rfl
  | cons h t ih =>
    rw [List.map_cons]
    by_cases hc : (h.id == i) = true
    · rw [List.find?_cons_of_pos (t.map g) (show ((g h).id == i) = true by rw [hg h]; exact hc),
        List.find?_cons_of_pos t hc]
      rfl
    · rw [List.find?_cons_of_neg (t.map g) (show ¬ ((g h).id == i) = true by rw [hg h]; exact hc),
        List.find?_cons_of_neg t hc, ih]

/-- Row transformers that keep id and qty keep the observed quantity. -/
theorem qtyOf_map_pres (db : DB) (g : Book → Book)
    (hg : ∀ b, (g b).id = b.id ∧ (g b).qty = b.qty) (i : Int) :
    qtyOf { db with books := db.books.map g } i = qtyOf db i := by
  unfold qtyOf lookupBook
  rw [show ({ db with books := db.books.map g } : DB).books = db.books.map g from rfl,
    find?_map_pres_id db.books g (fun b => (hg b).1) i]
  cases h : db.books.find? (fun b => b.id == i) with
  | none => rfl
  | some b => simp [(hg b).2]

/-- The title update leaves every stored quantity unchanged. -/
theorem qtyOf_updateTitle (db : DB) (j : Int) (t : String) (i : Int) :
    qtyOf (updateTitle db j t) i = qtyOf db i :=
  qtyOf_map_pres db _ (fun b => by by_cases hc : (b.id == j) = true <;> simp [hc]) i

/-- The author-id update leaves every stored quantity unchanged. -/
theorem qtyOf_updateAuthorID (db : DB) (j n : Int) (i : Int) :
    qtyOf (updateAuthorID db j n) i = qtyOf db i :=
  qtyOf_map_pres db _ (fun b => by by_cases hc : (b.id == j) = true <;> simp [hc]) i

/-- Committing a quantity for an existing id stores exactly that quantity. -/
theorem qtyOf_updateQty (db : DB) (i q : Int) (b : Book) (hb : lookupBook db i = some b) :
    qtyOf (updateQty db i q) i = some q := by
  unfold qtyOf updateQty lookupBook
  rw [show ({ db with books := db.books.map fun b => if b.id == i then { b with qty := q } else b } : DB).books
      = db.books.map (fun b => if b.id == i then { b with qty := q } else b) from rfl,
    find?_map_pres_id db.books _ (fun x => by by_cases hc : (x.id == i) = true <;> simp [hc]) i]
  unfold lookupBook at hb
  rw [hb]
  have hp := List.find?_some hb
  have hpi : b.id = i := by simpa using hp
  simp [hpi]

/-- A successful author insert leaves the book table unchanged. -/
theorem insertAuthor_books (db db2 : DB) (a : Author) (h : insertAuthor db a = some db2) :
    db2.books = db.books := by
  unfold insertAuthor at h
  split at h
  · exact absurd h (by simp)
  · simp only [Option.some.injEq] at h
    rw [← h]

/-- The observed quantities depend only on the book table. -/
theorem qtyOf_eq_of_books (db db2 : DB) (h : db2.books = db.books) (i : Int) :
    qtyOf db2 i = qtyOf db i := by
  unfold qtyOf lookupBook
  rw [h]

/-- One sub-menu step of update_book never changes any stored quantity: the
title and author-id updates keep id and qty, and the author-table writes do
not touch the book table. -/
theorem subStep_qtyOf (iN oA : Int) (db : DB) (m : UMode) (s : String) (i : Int) :
    qtyOf (subStep iN oA db m s).db i = qtyOf db i := by
  cases m with
  | choice => simp only [subStep]; split_ifs <;> rfl
  | title =>
    simp only [subStep]
    split_ifs <;> first | rfl | exact qtyOf_updateTitle db iN (pyStrip s) i
  | authId =>
    simp only [subStep]
    cases pyInt s with
    | none => rfl
    | some n =>
      simp only []
      split_ifs <;> first | rfl | exact qtyOf_updateAuthorID db iN n i
  | authYN n => simp only [subStep]; split_ifs <;> rfl
  | authName n => simp only [subStep]; cases nameCheck (pyStrip s) <;> rfl
  | authCountry n nm =>
    simp only [subStep]
    cases nameCheck (pyStrip s) with
    | some m => rfl
    | none =>
      simp only []
      cases hins : insertAuthor db ⟨n, nm, pyStrip s⟩ with
      | none => rfl
      | some db2 =>
        simp only [SubOut.db]
        rw [qtyOf_updateAuthorID db2 iN n i,
          qtyOf_eq_of_books db db2 (insertAuthor_books db db2 _ hins) i]
  | anName => simp only [subStep]; cases nameCheck (pyStrip s) <;> rfl
  | acCountry => simp only [subStep]; cases nameCheck (pyStrip s) <;> rfl

/-- Running the whole sub-menu never changes any stored quantity. -/
theorem subRun_qtyOf (iN oA i : Int) :
    ∀ (inp : List String) (db : DB) (m : UMode),
      qtyOf (subRun iN oA db m inp).1 i = qtyOf db i := by
  intro inp
  induction inp with
  | nil => intro db m; rfl
  | cons s rest ih =>
    intro db m
    cases hs : subStep iN oA db m s with
    | cont db2 m2 ms =>
      have h2 : qtyOf db2 i = qtyOf db i := by
        have h := subStep_qtyOf iN oA db m s i
        rw [hs] at h
        exact h
      simp only [subRun, hs]
      rw [ih db2 m2, h2]
    | stop db2 ms =>
      have h2 : qtyOf db2 i = qtyOf db i := by
        have h := subStep_qtyOf iN oA db m s i
        rw [hs] at h
        exact h
      simp only [subRun, hs]
      exact h2

/-- A successful id phase of update_book really found the chosen book. -/
theorem ubReadId_sound (db : DB) :
    ∀ (inp : List String) (i : Int) (b : Book) (a : Author) (rest : List String),
      (ubReadId db inp).2 = some (i, b, a, rest) → lookupBook db i = some b := by
  intro inp
  induction inp with
  | nil => intro i b a rest h; exact absurd h (by simp [ubReadId])
  | cons s t ih =>
    intro i b a rest h
    unfold ubReadId at h
    split at h
    · exact ih i b a rest h
    · cases hj : joinedLookup db ((pyInt s).getD 0) with
      | none => rw [hj] at h; exact ih i b a rest h
      | some p =>
        rw [hj] at h
        simp only [Option.some.injEq, Prod.mk.injEq] at h
        obtain ⟨hi, hb, ha, hr⟩ := h
        subst hi hb
        exact joinedLookup_book db _ _ p.2 (by rw [hj])


/-- C6: in every UpdateBook run whose id phase chooses an existing book and
whose quantity phase accepts a (necessarily non-negative) quantity q, the
final store holds q as that book's quantity, whatever sub-menu actions the
rest of the input takes or does not take. -/
theorem update_qty_always_committed (db : DB) (inp : List String)
    (ms1 ms2 : List Msg) (i q : Int) (b : Book) (a : Author) (r1 r2 : List String)
    (h1 : ubReadId db inp = (ms1, some (i, b, a, r1)))
    (h2 : ubReadQty r1 = (ms2, some (q, r2))) :
    qtyOf (update_book db inp).1 i = some q := by
  have hb : lookupBook db i = some b := ubReadId_sound db inp i b a r1 (by rw [h1])
  have hm : b ∈ db.books := by
    unfold lookupBook at hb
    exact List.mem_of_find?_eq_some hb
  have hne : db.books.isEmpty = false := by
    rw [Bool.eq_false_iff]
    intro hc
    exact List.ne_nil_of_mem hm (List.isEmpty_iff.mp hc)
  unfold update_book
  simp only [hne, Bool.false_eq_true, if_false, h1, h2]
  rw [subRun_qtyOf i b.authorID i r2 (updateQty db i q) UMode.choice]
  exact qtyOf_updateQty db i q b hb

/-- C6 witness: a concrete run on the seeded store, updating book 3001 to
quantity 7 and immediately returning from the sub-menu. -/
theorem update_qty_always_committed_witness :
    qtyOf (update_book seedDB ["3001", "7", "r"]).1 3001 = some 7 :=
  update_qty_always_committed seedDB ["3001", "7", "r"] [] [] 3001 7
    ⟨3001, "A Tale of Two Cities", 1290, 30⟩ ⟨1290, "Charles Dickens", "England"⟩
    ["7", "r"] ["r"] (by decide) (by decide)

/-- A valid first line makes the enter_book book-id loop accept it. -/
theorem ebReadBookId_valid (s : String) (rest : List String) (n : Int)
    (h : pyInt s = some n) (h1 : 1000 ≤ n) (h2 : n ≤ 9999) :
    ebReadBookId (s :: rest) = ([], some (n, rest)) := by
  simp only [ebReadBookId, h]
  rw [if_neg (by omega)]

/-- A non-blank first line makes the enter_book title loop accept it. -/
theorem ebReadTitle_valid (s : String) (rest : List String) (h : ¬ (pyStrip s = "")) :
    ebReadTitle (s :: rest) = ([], some (pyStrip s, rest)) := by
  simp only [ebReadTitle]
  rw [if_neg h]

/-- A valid first line makes the enter_book author-id loop accept it. -/
theorem ebReadAuthorId_valid (s : String) (rest : List String) (n : Int)
    (h : pyInt s = some n) (h1 : 1000 ≤ n) (h2 : n ≤ 9999) :
    ebReadAuthorId (s :: rest) = ([], some (n, rest)) := by
  simp only [ebReadAuthorId, h]
  rw [if_neg (by omega)]

/-- A valid first line makes the enter_book quantity loop accept it. -/
theorem ebReadQty_valid (s : String) (rest : List String) (q : Int)
    (h : pyInt s = some q) (h1 : 0 ≤ q) :
    ebReadQty (s :: rest) = ([], some (q, rest)) := by
  simp only [ebReadQty, h]
  rw [if_neg (by omega)]

/-- C1: an AddBook run whose inputs are all valid on first entry - a 4-digit
book id not yet present, a non-blank title, an existing 4-digit author id and
a non-negative quantity - afterwards stores a book row with exactly those
four field values. -/
theorem enter_book_valid_inserts_row (db : DB) (s1 s2 s3 s4 : String) (bid aid q : Int)
    (h1 : pyInt s1 = some bid) (h2 : 1000 ≤ bid) (h3 : bid ≤ 9999)
    (h4 : ¬ (pyStrip s2 = ""))
    (h5 : pyInt s3 = some aid) (h6 : 1000 ≤ aid) (h7 : aid ≤ 9999)
    (hA : authorExists db aid = true)
    (h8 : pyInt s4 = some q) (h9 : 0 ≤ q)
    (hNew : lookupBook db bid = none) :
    (⟨bid, pyStrip s2, aid, q⟩ : Book) ∈ (enter_book db [s1, s2, s3, s4]).1.books := by
  have e1 := ebReadBookId_valid s1 [s2, s3, s4] bid h1 h2 h3
  have e2 := ebReadTitle_valid s2 [s3, s4] h4
  have e3 := ebReadAuthorId_valid s3 [s4] aid h5 h6 h7
  have e4 := ebReadQty_valid s4 [] q h8 h9
  have hAny := any_id_of_lookup_none db bid hNew
  simp only [enter_book, e1, e2, e3, hA, if_true, ebFinish, e4, insertBook, hAny,
    Bool.false_eq_true, if_false]
  simp [List.mem_append]

/-- C1 witness: a concrete valid run on the seeded store. -/
theorem enter_book_valid_inserts_row_witness :
    (⟨4001, pyStrip "X", 1290, 5⟩ : Book) ∈ (enter_book seedDB ["4001", "X", "1290", "5"]).1.books :=
  enter_book_valid_inserts_row seedDB "4001" "X" "1290" "5" 4001 1290 5
    (by decide) (by decide) (by decide) (by decide) (by decide) (by decide) (by decide)
    (by decide) (by decide) (by decide) (by decide)

/-- Answering n at the inline-creation prompt aborts the author loop with
nothing printed and nothing written. -/
theorem ebAuthorLoop_n (db : DB) (aid : Int) (s : String) (rest : List String)
    (hn : pyLower (pyStrip s) = "n") :
    ebAuthorLoop db aid (s :: rest) = ([], none) := by
  have hstep : ebAuthorStep db aid AMode.yn s = AOut.abort [] := by
    simp only [ebAuthorStep]
    rw [hn, if_neg (by decide), if_pos rfl]
  simp only [ebAuthorLoop, ebAuthorRun, hstep]

/-- Answering y with a valid name and country inserts the author and leaves
the loop. -/
theorem ebAuthorLoop_y (db : DB) (aid : Int) (s nm co : String) (rest : List String)
    (hy : pyLower (pyStrip s) = "y")
    (hnm : nameCheck (pyStrip nm) = none)
    (hco : nameCheck (pyStrip co) = none)
    (db2 : DB) (hIns : insertAuthor db ⟨aid, pyStrip nm, pyStrip co⟩ = some db2) :
    ebAuthorLoop db aid (s :: nm :: co :: rest) = ([Msg.authorAdded], some (db2, rest)) := by
  have h1 : ebAuthorStep db aid AMode.yn s = AOut.cont AMode.name [] := by
    simp only [ebAuthorStep]
    rw [hy, if_pos rfl]
  have h2 : ebAuthorStep db aid AMode.name nm = AOut.cont (AMode.country (pyStrip nm)) [] := by
    simp only [ebAuthorStep, hnm]
  have h3 : ebAuthorStep db aid (AMode.country (pyStrip nm)) co
      = AOut.done db2 [Msg.authorAdded] := by
    simp only [ebAuthorStep, hco, hIns]
  simp only [ebAuthorLoop, ebAuthorRun, h1, h2, h3]
  simp

/-- C8: an AddBook run whose author id is absent and whose answer to the
inline-creation prompt is n aborts with the store - both tables - unchanged. -/
theorem enter_book_decline_unchanged (db : DB) (s1 s2 s3 s4 : String) (rest : List String)
    (bid aid : Int)
    (h1 : pyInt s1 = some bid) (h2 : 1000 ≤ bid) (h3 : bid ≤ 9999)
    (h4 : ¬ (pyStrip s2 = ""))
    (h5 : pyInt s3 = some aid) (h6 : 1000 ≤ aid) (h7 : aid ≤ 9999)
    (hA : authorExists db aid = false)
    (hn : pyLower (pyStrip s4) = "n") :
    (enter_book db (s1 :: s2 :: s3 :: s4 :: rest)).1 = db := by
  have e1 := ebReadBookId_valid s1 (s2 :: s3 :: s4 :: rest) bid h1 h2 h3
  have e2 := ebReadTitle_valid s2 (s3 :: s4 :: rest) h4
  have e3 := ebReadAuthorId_valid s3 (s4 :: rest) aid h5 h6 h7
  have eal := ebAuthorLoop_n db aid s4 rest hn
  simp only [enter_book, e1, e2, e3, hA, Bool.false_eq_true, if_false, eal]

/-- C8 witness: a concrete declined run on the seeded store. -/
theorem enter_book_decline_unchanged_witness :
    (enter_book seedDB ["4500", "X", "4600", "n"]).1 = seedDB :=
  enter_book_decline_unchanged seedDB "4500" "X" "4600" "n" [] 4500 4600
    (by decide) (by decide) (by decide) (by decide) (by decide) (by decide) (by decide)
    (by decide) (by decide)

/-- C10: AddBook is not atomic across its inline author creation and its
book insert.  When the author id is absent, the user creates it inline with
a valid name and country, and the book insert then fails because the book id
already exists, the new author row stays committed while the book table is
unchanged (and the failure is reported with the generic storage message, see
the C7 theorem). -/
theorem enter_book_author_persists (db : DB) (s1 s2 s3 sy snm sco s4 : String)
    (bid aid q : Int)
    (h1 : pyInt s1 = some bid) (h2 : 1000 ≤ bid) (h3 : bid ≤ 9999)
    (h4 : ¬ (pyStrip s2 = ""))
    (h5 : pyInt s3 = some aid) (h6 : 1000 ≤ aid) (h7 : aid ≤ 9999)
    (hA : authorExists db aid = false)
    (hy : pyLower (pyStrip sy) = "y")
    (hnm : nameCheck (pyStrip snm) = none)
    (hco : nameCheck (pyStrip sco) = none)
    (h8 : pyInt s4 = some q) (h9 : 0 ≤ q)
    (hb0 : lookupBook db bid ≠ none) :
    (⟨aid, pyStrip snm, pyStrip sco⟩ : Author)
        ∈ (enter_book db [s1, s2, s3, sy, snm, sco, s4]).1.authors
      ∧ (enter_book db [s1, s2, s3, sy, snm, sco, s4]).1.books = db.books
      ∧ Msg.genericDbError ∈ (enter_book db [s1, s2, s3, sy, snm, sco, s4]).2 := by
  have e1 := ebReadBookId_valid s1 [s2, s3, sy, snm, sco, s4] bid h1 h2 h3
  have e2 := ebReadTitle_valid s2 [s3, sy, snm, sco, s4] h4
  have e3 := ebReadAuthorId_valid s3 [sy, snm, sco, s4] aid h5 h6 h7
  have e4 := ebReadQty_valid s4 [] q h8 h9
  have hAny : db.books.any (fun x => x.id == bid) = true := by
    cases hlb : lookupBook db bid with
    | none => exact absurd hlb hb0
    | some b0 => exact any_id_of_lookup db bid b0 hlb
  have hIns : insertAuthor db ⟨aid, pyStrip snm, pyStrip sco⟩
      = some { db with authors := db.authors ++ [⟨aid, pyStrip snm, pyStrip sco⟩] } := by
    unfold insertAuthor
    rw [show (db.authors.any fun x => x.id == (⟨aid, pyStrip snm, pyStrip sco⟩ : Author).id) = false
      from hA]
    simp
  have eal := ebAuthorLoop_y db aid sy snm sco [s4] hy hnm hco
    { db with authors := db.authors ++ [⟨aid, pyStrip snm, pyStrip sco⟩] } hIns
  simp only [enter_book, e1, e2, e3, hA, Bool.false_eq_true, if_false, eal, ebFinish, e4,
    insertBook, hAny, if_true]
  refine ⟨by simp, by simp, by simp⟩

/-- C10 witness: a concrete run on the seeded store with the duplicate book
id 3001 and the new author id 4500. -/
theorem enter_book_author_persists_witness :
    (⟨4500, pyStrip "Zadie", pyStrip "UK"⟩ : Author)
        ∈ (enter_book seedDB ["3001", "X", "4500", "y", "Zadie", "UK", "7"]).1.authors
      ∧ (enter_book seedDB ["3001", "X", "4500", "y", "Zadie", "UK", "7"]).1.books = seedDB.books
      ∧ Msg.genericDbError ∈ (enter_book seedDB ["3001", "X", "4500", "y", "Zadie", "UK", "7"]).2 :=
  enter_book_author_persists seedDB "3001" "X" "4500" "y" "Zadie" "UK" "7" 3001 4500 7
    (by decide) (by decide) (by decide) (by decide) (by decide) (by decide) (by decide)
    (by decide) (by decide) (by decide) (by decide) (by decide) (by decide) (by decide)

/-- Under unique book ids, filtering out one present id drops the row count
by exactly one. -/
theorem filter_ne_length (l : List Book) (n : Int)
    (hnd : (l.map (fun b => b.id)).Nodup) (b : Book) (hb : b ∈ l) (hid : b.id = n) :
    (l.filter (fun x => ! (x.id == n))).length + 1 = l.length := by
  induction l with
  | nil => cases hb
  | cons h t ih =>
    rw [List.map_cons, List.nodup_cons] at hnd
    rw [List.filter_cons]
    by_cases hc : h.id = n
    · have htail : t.filter (fun x => ! (x.id == n)) = t := by
        rw [List.filter_eq_self]
        intro x hx
        have hxn : ¬ (x.id = n) := by
          intro he
          exact hnd.1 (List.mem_map.mpr ⟨x, hx, by rw [he, hc]⟩)
        simp [hxn]
      rw [show (! (h.id == n)) = false by simp [hc]]
      simp [htail]
    · have hbt : b ∈ t := by
        rcases List.mem_cons.mp hb with h1 | h1
        · exact absurd (by rw [← h1]; exact hid) hc
        · exact h1
      have hrec := ih hnd.2 hbt
      rw [show (! (h.id == n)) = true by simp [hc]]
      simp only [if_true, List.length_cons]
      omega

/-- C9: a DeleteBook prompt iteration with an in-range id.  If the id
exists, exactly that row is removed: the result is the table filtered on
that id, the author table is untouched, the row count drops by one, every
other row survives and nothing else appears.  If it does not exist, the
store is unchanged, the not-found message is reported and the prompt repeats
on the remaining input. -/
theorem delete_exact_row (db : DB) (s : String) (rest : List String) (n : Int)
    (hs : pyInt s = some n) (h1 : 1000 ≤ n) (h2 : n ≤ 9999)
    (hnd : (db.books.map (fun b => b.id)).Nodup) (hne : ¬ (db.books = [])) :
    (∀ b, lookupBook db n = some b →
      delete db (s :: rest)
          = ({ db with books := db.books.filter (fun x => ! (x.id == n)) }, [Msg.deleted n])
        ∧ (delete db (s :: rest)).1.books.length + 1 = db.books.length
        ∧ (delete db (s :: rest)).1.authors = db.authors
        ∧ (∀ x ∈ db.books, ¬ (x.id = n) → x ∈ (delete db (s :: rest)).1.books)
        ∧ (∀ x ∈ (delete db (s :: rest)).1.books, x ∈ db.books ∧ ¬ (x.id = n)))
    ∧ (lookupBook db n = none →
        delete db (s :: rest)
          = ((deleteLoop db rest).1, Msg.bookNotFound n :: (deleteLoop db rest).2)) := by
  have hie : db.books.isEmpty = false := by
    rw [Bool.eq_false_iff]
    intro hc
    exact hne (List.isEmpty_iff.mp hc)
  constructor
  · intro b hb
    have hbid : b.id = n := by
      unfold lookupBook at hb
      have := List.find?_some hb
      simpa using this
    have hmem : b ∈ db.books := by
      unfold lookupBook at hb
      exact List.mem_of_find?_eq_some hb
    have hdel : delete db (s :: rest)
        = ({ db with books := db.books.filter (fun x => ! (x.id == n)) }, [Msg.deleted n]) := by
      unfold delete
      simp only [hie, Bool.false_eq_true, if_false]
      simp only [deleteLoop, hs]
      rw [if_neg (by omega), hb]
      rfl
    refine ⟨hdel, ?_, ?_, ?_, ?_⟩
    · rw [hdel]
      exact filter_ne_length db.books n hnd b hmem hbid
    · rw [hdel]
    · intro x hx hxn
      rw [hdel]
      exact List.mem_filter.mpr ⟨hx, by simp [hxn]⟩
    · intro x hx
      rw [hdel] at hx
      have hmf := List.mem_filter.mp hx
      refine ⟨hmf.1, ?_⟩
      have h3 := hmf.2
      simpa using h3
  · intro hnone
    unfold delete
    simp only [hie, Bool.false_eq_true, if_false]
    simp only [deleteLoop, hs]
    rw [if_neg (by omega), hnone]

/-- C9 witness: deleting the seeded book 3001. -/
theorem delete_exact_row_witness :
    (delete seedDB ["3001"]).1.books.length + 1 = seedDB.books.length
      ∧ (delete seedDB ["3001"]).1.authors = seedDB.authors :=
  ⟨((delete_exact_row seedDB "3001" [] 3001 (by decide) (by decide) (by decide) (by decide)
      (by decide)).1 ⟨3001, "A Tale of Two Cities", 1290, 30⟩ (by decide)).2.1,
   ((delete_exact_row seedDB "3001" [] 3001 (by decide) (by decide) (by decide) (by decide)
      (by decide)).1 ⟨3001, "A Tale of Two Cities", 1290, 30⟩ (by decide)).2.2.1⟩

/-- Under unique book ids, the duplicate-title check of the title sub-action
is empty exactly when the entered title differs from the chosen book's
current title. -/
theorem find?_title_id (l : List Book) (i : Int) (b : Book) (t : String)
    (hnd : (l.map (fun x => x.id)).Nodup) (hb : l.find? (fun x => x.id == i) = some b) :
    (l.find? (fun x => x.title == t && x.id == i) = none ↔ ¬ (t = b.title)) := by
  induction l with
  | nil => simp at hb
  | cons h tl ih =>
    rw [List.map_cons, List.nodup_cons] at hnd
    by_cases hc : h.id = i
    · have hbh : b = h := by
        rw [List.find?_cons_of_pos tl (by simp [hc])] at hb
        injection hb with hb2
        exact hb2.symm
      have htl : tl.find? (fun x => x.title == t && x.id == i) = none := by
        rw [List.find?_eq_none]
        intro x hx hp
        have hxi : x.id = i := by
          have := (Bool.and_eq_true .. ▸ hp).2
          simpa using this
        exact hnd.1 (List.mem_map.mpr ⟨x, hx, by rw [hxi, hc]⟩)
      by_cases ht : h.title = t
      · rw [List.find?_cons_of_pos tl (by simp [ht, hc])]
        subst hbh
        constructor
        · intro hx
          exact absurd hx (by simp)
        · intro hx
          exact absurd ht.symm hx
      · rw [List.find?_cons_of_neg tl (by simp [ht]), htl]
        subst hbh
        simp only [true_iff]
        intro hx
        exact ht hx.symm
    · rw [List.find?_cons_of_neg tl (by simp [hc])] at hb
      rw [List.find?_cons_of_neg tl (by simp [hc])]
      exact ih hnd.2 hb

/-- C5 amended: in the title sub-action of UpdateBook, on a non-blank
entered title the duplicate check succeeds exactly when the entered title
equals the chosen book's current title - that case is rejected and the title
prompt repeats with the store unchanged; every other non-blank title is
committed. -/
theorem update_title_check_iff (db : DB) (iN oA : Int) (b : Book) (s : String)
    (hnd : (db.books.map (fun x => x.id)).Nodup)
    (hb : lookupBook db iN = some b) (hne : ¬ (pyStrip s = "")) :
    (pyStrip s = b.title →
        subStep iN oA db UMode.title s = SubOut.cont db UMode.title [Msg.titleExists])
      ∧ (¬ (pyStrip s = b.title) →
        subStep iN oA db UMode.title s
          = SubOut.cont (updateTitle db iN (pyStrip s)) UMode.choice [Msg.titleUpdated]) := by
  unfold lookupBook at hb
  have hiff := find?_title_id db.books iN b (pyStrip s) hnd hb
  constructor
  · intro heq
    have hsome : ¬ (titleIdMatch db (pyStrip s) iN = none) := by
      intro hch
      unfold titleIdMatch at hch
      exact (hiff.mp hch) heq
    simp only [subStep]
    rw [if_neg hne, if_pos (Option.ne_none_iff_isSome.mp hsome)]
  · intro hneq
    have hnone : titleIdMatch db (pyStrip s) iN = none := by
      unfold titleIdMatch
      exact hiff.mpr hneq
    simp only [subStep]
    rw [if_neg hne, if_neg (by simp [hnone])]

/-- C5 amended witness: renaming seeded book 3001 to a fresh title commits
it. -/
theorem update_title_check_iff_witness :
    subStep 3001 1290 seedDB UMode.title "The Tale of Two Cities"
      = SubOut.cont (updateTitle seedDB 3001 (pyStrip "The Tale of Two Cities"))
          UMode.choice [Msg.titleUpdated] :=
  (update_title_check_iff seedDB 3001 1290 ⟨3001, "A Tale of Two Cities", 1290, 30⟩
    "The Tale of Two Cities" (by decide) (by decide) (by decide)).2 (by decide)

/-- The referential invariant in membership form. -/
theorem refInvB_iff (db : DB) :
    refInvB db = true ↔ ∀ b ∈ db.books, authorExists db b.authorID = true := by
  unfold refInvB
  exact List.all_eq_true

/-- The author-existence test sees through author-table writes that keep
every id. -/
theorem authorExists_map_pres (db : DB) (g : Author → Author)
    (hg : ∀ a, (g a).id = a.id) (i : Int) :
    authorExists { db with authors := db.authors.map g } i = authorExists db i := by
  unfold authorExists
  rw [show ({ db with authors := db.authors.map g } : DB).authors = db.authors.map g from rfl,
    List.any_map]
  congr 1
  funext a
  simp [Function.comp, hg a]

/-- A successful author insert appends the row. -/
theorem insertAuthor_authors (db db2 : DB) (a : Author) (h : insertAuthor db a = some db2) :
    db2.authors = db.authors ++ [a] := by
  unfold insertAuthor at h
  split at h
  · exact absurd h (by simp)
  · simp only [Option.some.injEq] at h
    rw [← h]

/-- An author insert keeps every existing author id present. -/
theorem authorExists_mono (db db2 : DB) (a : Author) (h : insertAuthor db a = some db2)
    (i : Int) (hi : authorExists db i = true) : authorExists db2 i = true := by
  unfold authorExists at *
  rw [insertAuthor_authors db db2 a h, List.any_append, hi]
  rfl

/-- An author insert makes the inserted id present. -/
theorem authorExists_insert_self (db db2 : DB) (a : Author) (h : insertAuthor db a = some db2) :
    authorExists db2 a.id = true := by
  unfold authorExists
  rw [insertAuthor_authors db db2 a h, List.any_append]
  simp

/-- Book-table rewrites that keep every row's authorID keep the invariant. -/
theorem refInv_books_map (db : DB) (g : Book → Book)
    (hg : ∀ b, (g b).authorID = b.authorID)
    (h : refInvB db = true) : refInvB { db with books := db.books.map g } = true := by
  rw [refInvB_iff] at *
  intro b hb
  rcases List.mem_map.mp hb with ⟨b0, hb0, hgb⟩
  have he : authorExists { db with books := db.books.map g } b.authorID
      = authorExists db b.authorID := rfl
  rw [he, ← hgb, hg b0]
  exact h b0 hb0

/-- The mandatory quantity write keeps the invariant. -/
theorem refInv_updateQty (db : DB) (j q : Int) (h : refInvB db = true) :
    refInvB (updateQty db j q) = true :=
  refInv_books_map db _ (fun b => by by_cases hc : (b.id == j) = true <;> simp [hc]) h

/-- The title write keeps the invariant. -/
theorem refInv_updateTitle (db : DB) (j : Int) (t : String) (h : refInvB db = true) :
    refInvB (updateTitle db j t) = true :=
  refInv_books_map db _ (fun b => by by_cases hc : (b.id == j) = true <;> simp [hc]) h

/-- Repointing a book to an author id that exists keeps the invariant. -/
theorem refInv_updateAuthorID (db : DB) (j n : Int) (hn : authorExists db n = true)
    (h : refInvB db = true) : refInvB (updateAuthorID db j n) = true := by
  rw [refInvB_iff] at *
  intro b hb
  rcases List.mem_map.mp hb with ⟨b0, hb0, hgb⟩
  have he : ∀ i, authorExists (updateAuthorID db j n) i = authorExists db i := fun i => rfl
  rw [he, ← hgb]
  by_cases hc : (b0.id == j) = true
  · simp only [hc, if_true]
    exact hn
  · simp only [hc, Bool.false_eq_true, if_false]
    exact h b0 hb0

/-- An author insert keeps the invariant. -/
theorem refInv_insertAuthor (db db2 : DB) (a : Author) (h : insertAuthor db a = some db2)
    (hinv : refInvB db = true) : refInvB db2 = true := by
  rw [refInvB_iff] at *
  intro x hx
  rw [insertAuthor_books db db2 a h] at hx
  exact authorExists_mono db db2 a h x.authorID (hinv x hx)

/-- Inserting a book whose author id exists keeps the invariant. -/
theorem refInv_insertBook (db db2 : DB) (b : Book) (h : insertBook db b = some db2)
    (hb : authorExists db b.authorID = true)
    (hinv : refInvB db = true) : refInvB db2 = true := by
  unfold insertBook at h
  split at h
  · exact absurd h (by simp)
  · simp only [Option.some.injEq] at h
    subst h
    rw [refInvB_iff] at *
    intro x hx
    rcases List.mem_append.mp hx with hx | hx
    · exact hinv x hx
    · have hxb : x = b := List.mem_singleton.mp hx
      subst hxb
      exact hb

/-- The author-name write keeps the invariant. -/
theorem refInv_updateAuthorName (db : DB) (j : Int) (v : String)
    (hinv : refInvB db = true) : refInvB (updateAuthorName db j v) = true := by
  rw [refInvB_iff] at *
  intro x hx
  have he : authorExists (updateAuthorName db j v) x.authorID = authorExists db x.authorID :=
    authorExists_map_pres db _ (fun a => by by_cases hc : (a.id == j) = true <;> simp [hc])
      x.authorID
  rw [he]
  exact hinv x hx

/-- The author-country write keeps the invariant. -/
theorem refInv_updateAuthorCountry (db : DB) (j : Int) (v : String)
    (hinv : refInvB db = true) : refInvB (updateAuthorCountry db j v) = true := by
  rw [refInvB_iff] at *
  intro x hx
  have he : authorExists (updateAuthorCountry db j v) x.authorID = authorExists db x.authorID :=
    authorExists_map_pres db _ (fun a => by by_cases hc : (a.id == j) = true <;> simp [hc])
      x.authorID
  rw [he]
  exact hinv x hx

/-- Deleting book rows keeps the invariant. -/
theorem refInv_deleteBook (db : DB) (n : Int) (h : refInvB db = true) :
    refInvB (deleteBook db n) = true := by
  rw [refInvB_iff] at *
  intro x hx
  exact h x (List.mem_filter.mp hx).1

/-- One sub-menu step of update_book keeps the invariant: every book-table
write either keeps authorIDs or repoints to an id checked or just inserted,
and author-table writes keep ids. -/
theorem subStep_refInv (iN oA : Int) (db : DB) (m : UMode) (s : String)
    (h : refInvB db = true) : refInvB (subStep iN oA db m s).db = true := by
  cases m with
  | choice => simp only [subStep]; split_ifs <;> exact h
  | title =>
    simp only [subStep]
    split_ifs <;> first
      | exact h
      | exact refInv_updateTitle db iN (pyStrip s) h
  | authId =>
    simp only [subStep]
    cases pyInt s with
    | none => exact h
    | some n =>
      simp only []
      by_cases hae : authorExists db n = true
      · rw [if_pos hae]
        exact refInv_updateAuthorID db iN n hae h
      · rw [if_neg hae]
        exact h
  | authYN n => simp only [subStep]; split_ifs <;> exact h
  | authName n => simp only [subStep]; cases nameCheck (pyStrip s) <;> exact h
  | authCountry n nm =>
    simp only [subStep]
    cases nameCheck (pyStrip s) with
    | some m2 => exact h
    | none =>
      simp only []
      cases hins : insertAuthor db ⟨n, nm, pyStrip s⟩ with
      | none => exact h
      | some db2 =>
        have h2 := refInv_insertAuthor db db2 _ hins h
        have hn : authorExists db2 n = true := by
          have := authorExists_insert_self db db2 ⟨n, nm, pyStrip s⟩ hins
          exact this
        exact refInv_updateAuthorID db2 iN n hn h2
  | anName =>
    simp only [subStep]
    cases nameCheck (pyStrip s) with
    | some m2 => exact h
    | none => exact refInv_updateAuthorName db oA (pyStrip s) h
  | acCountry =>
    simp only [subStep]
    cases nameCheck (pyStrip s) with
    | some m2 => exact h
    | none => exact refInv_updateAuthorCountry db oA (pyStrip s) h

/-- The whole sub-menu keeps the invariant. -/
theorem subRun_refInv (iN oA : Int) :
    ∀ (inp : List String) (db : DB) (m : UMode),
      refInvB db = true → refInvB (subRun iN oA db m inp).1 = true := by
  intro inp
  induction inp with
  | nil => intro db m h; exact h
  | cons s rest ih =>
    intro db m h
    cases hs : subStep iN oA db m s with
    | cont db2 m2 ms =>
      have h2 : refInvB db2 = true := by
        have h3 := subStep_refInv iN oA db m s h
        rw [hs] at h3
        exact h3
      simp only [subRun, hs]
      exact ih db2 m2 h2
    | stop db2 ms =>
      have h2 : refInvB db2 = true := by
        have h3 := subStep_refInv iN oA db m s h
        rw [hs] at h3
        exact h3
      simp only [subRun, hs]
      exact h2

/-- The update_book operation keeps the invariant. -/
theorem refInv_update_book (db : DB) (inp : List String)
    (h : refInvB db = true) : refInvB (update_book db inp).1 = true := by
  unfold update_book
  split_ifs with hie
  · exact h
  · cases h1 : ubReadId db inp with
    | mk ms1 o1 =>
      cases o1 with
      | none => exact h
      | some t1 =>
        obtain ⟨i, b, a, r1⟩ := t1
        simp only []
        cases h2 : ubReadQty r1 with
        | mk ms2 o2 =>
          cases o2 with
          | none => exact h
          | some t2 =>
            obtain ⟨q, r2⟩ := t2
            simp only []
            exact subRun_refInv i b.authorID r2 (updateQty db i q) UMode.choice
              (refInv_updateQty db i q h)

/-- The inline author-creation loop of enter_book, from any prompt: on
success the book table is unchanged, the requested author id now exists, and
every previously existing author id still exists. -/
theorem ebAuthorRun_spec (db : DB) (aid : Int) :
    ∀ (inp : List String) (m : AMode) (db2 : DB) (rest : List String),
      (ebAuthorRun db aid m inp).2 = some (db2, rest) →
      db2.books = db.books ∧ authorExists db2 aid = true
        ∧ (∀ i, authorExists db i = true → authorExists db2 i = true) := by
  intro inp
  induction inp with
  | nil => intro m db2 rest h; simp [ebAuthorRun] at h
  | cons s t ih =>
    intro m db2 rest h
    cases hs : ebAuthorStep db aid m s with
    | cont m2 ms =>
      simp only [ebAuthorRun, hs] at h
      exact ih m2 db2 rest h
    | abort ms =>
      simp only [ebAuthorRun, hs] at h
      exact absurd h (by simp)
    | done dbx ms =>
      simp only [ebAuthorRun, hs, Option.some.injEq, Prod.mk.injEq] at h
      obtain ⟨hdb, hrest⟩ := h
      subst hdb
      cases m with
      | yn =>
        simp only [ebAuthorStep] at hs
        split_ifs at hs
      | name =>
        simp only [ebAuthorStep] at hs
        cases hnc : nameCheck (pyStrip s) <;> simp only [hnc] at hs <;> cases hs
      | country nm =>
        simp only [ebAuthorStep] at hs
        cases hnc : nameCheck (pyStrip s) with
        | some m2 => simp only [hnc] at hs; cases hs
        | none =>
          simp only [hnc] at hs
          cases hins : insertAuthor db ⟨aid, nm, pyStrip s⟩ with
          | none => simp only [hins] at hs; cases hs
          | some dby =>
            simp only [hins, AOut.done.injEq] at hs
            obtain ⟨h3, h4⟩ := hs
            rw [← h3]
            refine ⟨insertAuthor_books db dby _ hins, ?_, ?_⟩
            · exact authorExists_insert_self db dby ⟨aid, nm, pyStrip s⟩ hins
            · intro i hi
              exact authorExists_mono db dby _ hins i hi

/-- The tail of enter_book keeps the invariant when the author id it is
about to store exists. -/
theorem refInv_ebFinish (db : DB) (bid : Int) (t : String) (aid : Int) (ms : List Msg)
    (inp : List String) (hA : authorExists db aid = true)
    (h : refInvB db = true) : refInvB (ebFinish db bid t aid ms inp).1 = true := by
  unfold ebFinish
  cases e4 : ebReadQty inp with
  | mk msq o =>
    cases o with
    | none => exact h
    | some t2 =>
      obtain ⟨q, r⟩ := t2
      simp only []
      cases hi : insertBook db ⟨bid, t, aid, q⟩ with
      | none => exact h
      | some db2 =>
        simp only []
        exact refInv_insertBook db db2 _ hi hA h

/-- The enter_book operation keeps the invariant. -/
theorem refInv_enter_book (db : DB) (inp : List String)
    (h : refInvB db = true) : refInvB (enter_book db inp).1 = true := by
  unfold enter_book
  cases e1 : ebReadBookId inp with
  | mk ms1 o1 =>
    cases o1 with
    | none => exact h
    | some t1 =>
      obtain ⟨bid, r1⟩ := t1
      simp only []
      cases e2 : ebReadTitle r1 with
      | mk ms2 o2 =>
        cases o2 with
        | none => exact h
        | some t2 =>
          obtain ⟨ttl, r2⟩ := t2
          simp only []
          cases e3 : ebReadAuthorId r2 with
          | mk ms3 o3 =>
            cases o3 with
            | none => exact h
            | some t3 =>
              obtain ⟨aid, r3⟩ := t3
              simp only []
              split_ifs with hA
              · exact refInv_ebFinish db bid ttl aid _ r3 hA h
              · cases hal : ebAuthorLoop db aid r3 with
                | mk ms4 o4 =>
                  cases o4 with
                  | none => exact h
                  | some t4 =>
                    obtain ⟨db2, r4⟩ := t4
                    simp only []
                    have hspec := ebAuthorRun_spec db aid r3 AMode.yn db2 r4 (by
                      have : (ebAuthorLoop db aid r3).2 = some (db2, r4) := by rw [hal]
                      exact this)
                    have h2 : refInvB db2 = true := by
                      rw [refInvB_iff] at *
                      intro x hx
                      rw [hspec.1] at hx
                      exact hspec.2.2 x.authorID (h x hx)
                    exact refInv_ebFinish db2 bid ttl aid _ r4 hspec.2.1 h2

/-- The deleteLoop of the delete operation keeps the invariant. -/
theorem refInv_deleteLoop (db : DB) :
    ∀ (inp : List String), refInvB db = true → refInvB (deleteLoop db inp).1 = true := by
  intro inp
  induction inp with
  | nil => intro h; exact h
  | cons s rest ih =>
    intro h
    simp only [deleteLoop]
    cases pyInt s with
    | none => exact ih h
    | some n =>
      simp only []
      by_cases hr : 1000 ≤ n ∧ n ≤ 9999
      · rw [if_neg (not_not_intro hr)]
        cases lookupBook db n with
        | none => exact ih h
        | some b => exact refInv_deleteBook db n h
      · rw [if_pos hr]
        exact ih h

/-- The delete operation keeps the invariant. -/
theorem refInv_delete (db : DB) (inp : List String) (h : refInvB db = true) :
    refInvB (delete db inp).1 = true := by
  unfold delete
  split_ifs with hie
  · exact h
  · exact refInv_deleteLoop db inp h

/-- C2: every store reachable from the seeded store through the five menu
operations satisfies the referential invariant: each book row's authorID is
the id of a row of the author table.  No operation deletes an author or
changes an author id, so the invariant holding in each reachable store is
exactly the invariant holding whenever a book row is committed. -/
theorem reachable_referential_invariant (db : DB) (h : Reachable db) :
    refInvB db = true := by
  induction h with
  | seed => decide
  | add inp _ ih => exact refInv_enter_book _ inp ih
  | upd inp _ ih => exact refInv_update_book _ inp ih
  | del inp _ ih => exact refInv_delete _ inp ih
  | sea inp _ ih => exact ih
  | view _ ih => exact ih

/-- C2 witness: the invariant holds in the seeded store, which is
reachable. -/
theorem reachable_referential_invariant_witness : refInvB seedDB = true :=
  reachable_referential_invariant seedDB Reachable.seed

/-- C3: the claim says every user-entered ID is accepted iff it is an
integer in [1000, 9999], and on every violation the violation is reported and
the same prompt is re-issued with no further processing of the invalid
value.  The search operation violates this (missing continue at line 962):
entering 999 prints the range message, yet the lookup for id 999 still runs,
its not-found result is reported, and the loop breaks — the second input
line is never consumed by the id prompt. -/
theorem search_out_of_range_processed :
    search seedDB ["999", "1000"] = (seedDB, [Msg.pos4Prompt, Msg.searchNotFound 999]) := by
  decide

/-- C4: the claim says every storage fault is caught and reported at the
operation boundary and the process never terminates.  A fault injected into
the initial fetch of the delete operation is suppressed inside db_connection,
so the boundary handler never fires, book_list stays unassigned, and the
subsequent use raises UnboundLocalError, which nothing catches: the run
crashes instead of returning to the menu. -/
theorem delete_fault_crashes :
    deleteF true seedDB ["3001"] = Outcome.crash PyExn.unboundLocal [Msg.genericDbError]
      ∧ deleteF false seedDB ["3001"] = Outcome.ok (deleteBook seedDB 3001) [Msg.deleted 3001] := by
  constructor
  · rfl
  · decide

/-- C7: the claim says a duplicate bookID is reported by a duplicate-key
condition distinct from the generic storage-failure report.  Inserting the
seeded id 3001 leaves the table unchanged and ends the operation, but the
IntegrityError is suppressed inside db_connection, which prints only its
generic storage-failure message; the distinct duplicate message of
lines 396-397 never appears. -/
theorem enter_book_duplicate_generic_report :
    enter_book seedDB ["3001", "X", "1290", "5"] = (seedDB, [Msg.genericDbError])
      ∧ ∀ bid, Msg.duplicateBookId bid ∉ (enter_book seedDB ["3001", "X", "1290", "5"]).2 := by
  constructor
  · decide
  · intro bid
    have h : (enter_book seedDB ["3001", "X", "1290", "5"]).2 = [Msg.genericDbError] := by decide
    rw [h]
    simp

/-- C5 counterexample: the claim says the duplicate-title check of the
update-title sub-action is false for every reachable store state and every
entered title.  In the seeded store (reachable), updating book 3001 and
entering its current title makes the check true: the title is rejected and
the title prompt repeats. -/
theorem update_title_rejects_current_title :
    (update_book seedDB ["3001", "30", "t", "A Tale of Two Cities"]).2
      = [Msg.qtyAdded, Msg.titleExists] := by
  decide

end ShelfTrack
